import Mathlib

/-!
# Verification of the qualification-check execution bridge

Shallow embedding of `src/lib/cyclone/src/server/qualification_check.rs`:
the wire envelope types, the worker-record types, the translation functions,
the `timestamp` clamp, the three-phase execution state machine
(`start` / `process` / `finish`) and the three-way shutdown combination.

External effects (websocket sends, the child process, the clock) are embedded
as explicit inputs: each fallible operation's underlying outcome is supplied
by an environment record, and the observable actions of a run are collected
into an explicit event trace.
-/

namespace Cyclone

/-- Stand-in for `serde_json::Value` (external library type): the bridge never
inspects the structured payload, it only passes it through, so it is embedded
as an abstract record. -/
structure Value where
  payload : String
  deriving DecidableEq, Repr

/-- Modelled from the spec: sub-check records (`subChecks?`) are produced by
the worker and passed through the bridge untouched (the
`QualificationSubCheck` type lives in the crate root, outside the reviewed
source); embedded as an abstract record. -/
structure QualificationSubCheck where
  payload : String
  deriving DecidableEq, Repr

/-- Modelled from the spec: `ExecutionRequest` is an opaque payload produced
by the caller and forwarded to the worker exactly once (the
`QualificationCheckRequest` type lives in the crate root, outside the
reviewed source). -/
structure QualificationCheckRequest where
  payload : String
  deriving DecidableEq, Repr

/-- `OutputStream` (crate root): the caller-facing incremental output record;
its fields are exactly those assigned in `From<LangServerOutput> for
OutputStream` in the reviewed source. `timestamp` is `u64`, embedded as
`Nat`. -/
structure OutputStream where
  execution_id : String
  stream : String
  level : String
  group : Option String
  message : String
  data : Option Value
  timestamp : Nat
  deriving DecidableEq, Repr

/-- `QualificationCheckResultSuccess` (crate root): fields exactly as
assigned in `From<LangServerResult>` in the reviewed source. -/
structure QualificationCheckResultSuccess where
  execution_id : String
  qualified : Bool
  message : Option String
  title : Option String
  link : Option String
  sub_checks : Option (List QualificationSubCheck)
  timestamp : Nat
  deriving DecidableEq, Repr

/-- `FunctionResultFailureError` (crate root): fields as assigned in the
reviewed source. -/
structure FunctionResultFailureError where
  kind : String
  message : String
  deriving DecidableEq, Repr

/-- `FunctionResultFailure` (crate root): fields as assigned in the reviewed
source. -/
structure FunctionResultFailure where
  execution_id : String
  error : FunctionResultFailureError
  timestamp : Nat
  deriving DecidableEq, Repr

/-- `FunctionResult<S>` (crate root): the tagged result union. -/
inductive FunctionResult (S : Type) where
  | Success (s : S)
  | Failure (f : FunctionResultFailure)
  deriving DecidableEq, Repr

/-- `Message<S>` (crate root): the four-variant caller-facing envelope
(Start / OutputStream / Result / Finish), as used by the reviewed source. -/
inductive Message (S : Type) where
  | Start
  | OutputStream (o : Cyclone.OutputStream)
  | Result (r : FunctionResult S)
  | Finish
  deriving DecidableEq, Repr

/-- The envelope type at the instantiation the bridge uses. -/
abbrev QMessage := Message QualificationCheckResultSuccess

/-- `LangServerOutput`: worker-side incremental record (reviewed source,
camelCase on the wire). Note: it has no timestamp field. -/
structure LangServerOutput where
  execution_id : String
  stream : String
  level : String
  group : Option String
  message : String
  data : Option Value
  deriving DecidableEq, Repr

/-- `LangServerSuccess`: worker-side success record (reviewed source). Note:
it has no timestamp field. -/
structure LangServerSuccess where
  execution_id : String
  qualified : Bool
  title : Option String
  link : Option String
  sub_checks : Option (List QualificationSubCheck)
  message : Option String
  deriving DecidableEq, Repr

/-- `LangServerFailureError` (reviewed source). -/
structure LangServerFailureError where
  kind : String
  message : String
  deriving DecidableEq, Repr

/-- `LangServerFailure` (reviewed source). -/
structure LangServerFailure where
  execution_id : String
  error : LangServerFailureError
  deriving DecidableEq, Repr

/-- `LangServerResult`: worker-side terminal record, tagged by `status`
(reviewed source). -/
inductive LangServerResult where
  | Success (s : LangServerSuccess)
  | Failure (f : LangServerFailure)
  deriving DecidableEq, Repr

/-- `LangServerQualificationCheckMessage`: one frame of the worker's output
stream, tagged by `protocol` (reviewed source). -/
inductive LangServerQualificationCheckMessage where
  | Output (o : LangServerOutput)
  | Result (r : LangServerResult)
  deriving DecidableEq, Repr

/-! ## The timestamp clamp -/

/-- `u64::try_from` applied to an `i64` value (embedded as `Int`): it
succeeds exactly when the value is non-negative (an `i64` can never exceed
`u64::MAX`). -/
def u64TryFrom (i : Int) : Option Nat :=
  if 0 ≤ i then some i.toNat else none

/-- The value `fn timestamp()` computes before the `.expect` unwrap, with the
clock reading `Utc::now().timestamp()` (an `i64`) passed in as `now`:
`u64::try_from(std::cmp::max(now, 0))`. -/
def timestampChecked (now : Int) : Option Nat :=
  u64TryFrom (max now 0)

/-- `fn timestamp()` as a total function of the clock reading. The source
unwraps with `.expect("timestamp not be negative")`; the `.getD 0` default
models the panic branch, which is proved unreachable below. -/
def timestamp (now : Int) : Nat :=
  (timestampChecked now).getD 0

/-! ## Translations (the `From` impls in the reviewed source) -/

/-- `From<LangServerOutput> for OutputStream`: every field copied from the
worker record, except `timestamp`, which is read from the clock at
translation time. -/
def outputStreamOfLangServer (now : Int) (value : LangServerOutput) :
    OutputStream :=
  { execution_id := value.execution_id
    stream := value.stream
    level := value.level
    group := value.group
    data := value.data
    message := value.message
    timestamp := timestamp now }

/-- `From<LangServerResult> for FunctionResult<QualificationCheckResultSuccess>`:
fields copied from the worker record; `timestamp` read from the clock at
translation time in both arms. -/
def FunctionResult.ofLangServerResult (now : Int) (value : LangServerResult) :
    FunctionResult QualificationCheckResultSuccess :=
  match value with
  | .Success success =>
      .Success
        { execution_id := success.execution_id
          qualified := success.qualified
          message := success.message
          title := success.title
          link := success.link
          sub_checks := success.sub_checks
          timestamp := timestamp now }
  | .Failure failure =>
      .Failure
        { execution_id := failure.execution_id
          error :=
            { kind := failure.error.kind
              message := failure.error.message }
          timestamp := timestamp now }

/-- The per-record translation performed inside `process`: an Output record
becomes an OutputStream envelope, a Result record becomes a Result
envelope. -/
def translateLS (now : Int) :
    LangServerQualificationCheckMessage → QMessage
  | .Output output => .OutputStream (outputStreamOfLangServer now output)
  | .Result result => .Result (FunctionResult.ofLangServerResult now result)

/-! ## Error types -/

/-- Stand-in for `axum::Error` (external library type): carried through
uninspected. -/
structure AxumError where
  msg : String
  deriving DecidableEq, Repr

/-- Stand-in for `std::io::Error` as yielded by the framed child-stdout
stream: either a transport-level failure or a JSON decode failure on a
malformed frame (the tokio_serde JSON codec folds serde decode errors into
`io::Error` at this boundary). -/
inductive IoError where
  | ioFail (msg : String)
  | decodeFail (msg : String)
  deriving DecidableEq, Repr

/-- Stand-in for `ShutdownError` from the `process` module (outside the
reviewed source): carried through uninspected. -/
structure ShutdownError where
  msg : String
  deriving DecidableEq, Repr

/-- `axum::extract::ws::Message` restricted to the variants the reviewed
source distinguishes: text frames, and any non-text frame (rejected as a
protocol violation during request read). -/
inductive WebSocketMessage where
  | Text (s : String)
  | Binary (b : List Nat)
  | Close
  deriving DecidableEq, Repr

/-- `QualificationCheckError` (reviewed source). Constructor names ending in
`IO` in the source are embedded with an `Io` suffix. `SendTimeout` carries a
`tokio::time::error::Elapsed` in the source, embedded payload-free; the
other external payloads are the abstract records above. -/
inductive QualificationCheckError where
  | ChildIo (stream : String)
  | ChildRecvIo (e : IoError)
  | ChildSendIo (e : IoError)
  | ChildSpawn (e : IoError) (program : String)
  | ChildShutdown (e : ShutdownError)
  | JSONDeserialize (e : String)
  | JSONSerialize (e : String)
  | SendTimeout
  | WSClose (e : AxumError)
  | WSRecvClosed
  | WSRecvIo (e : AxumError)
  | WSSendIo (e : AxumError)
  | UnexpectedMessageType (m : WebSocketMessage)
  deriving DecidableEq, Repr

/-- Whether an `Except` outcome is a success. -/
def exceptIsOk {ε α : Type} : Except ε α → Bool
  | .ok _ => true
  | .error _ => false

instance {ε α : Type} [DecidableEq ε] [DecidableEq α] :
    DecidableEq (Except ε α)
  | .error e, .error f =>
      if h : e = f then .isTrue (by rw [h])
      else .isFalse (by intro hc; injection hc; contradiction)
  | .error _, .ok _ => .isFalse (by intro hc; exact Except.noConfusion hc)
  | .ok _, .error _ => .isFalse (by intro hc; exact Except.noConfusion hc)
  | .ok a, .ok b =>
      if h : a = b then .isTrue (by rw [h])
      else .isFalse (by intro hc; injection hc; contradiction)

/-! ## Send attempts and the 2-second deadline -/

/-- The behavior of one underlying send attempt (`ws.send`, or the child
stdin write/close): it may complete within the 2-second `TX_TIMEOUT_SECS`
deadline (successfully or with an error), or only complete after the
deadline has elapsed (successfully or with an error). -/
inductive SendBehavior (ε : Type) where
  | ok
  | err (e : ε)
  | slowOk
  | slowErr (e : ε)
  deriving DecidableEq, Repr

/-- Whether the underlying send attempt takes longer than the deadline. -/
def SendBehavior.exceedsDeadline {ε : Type} : SendBehavior ε → Bool
  | .slowOk => true
  | .slowErr _ => true
  | _ => false

/-- A send wrapped in `time::timeout(TX_TIMEOUT_SECS, ...)` with
`.map_err(SendTimeout)?` then `.map_err(wrap)?` (the shape of
`ws_send_start`, `ws_send_finish` and both halves of
`child_send_function_request`): exceeding the deadline yields `SendTimeout`;
an error within the deadline yields the wrapped error. -/
def timeoutSend {ε : Type} (wrap : ε → QualificationCheckError) :
    SendBehavior ε → Except QualificationCheckError Unit
  | .ok => .ok ()
  | .err e => .error (wrap e)
  | .slowOk => .error .SendTimeout
  | .slowErr _ => .error .SendTimeout

/-- A bare send with no timeout wrapper, only `.map_err(wrap)?` (the shape of
the streamed `ws.send(msg)` inside `process`): the deadline plays no role —
a slow send simply completes, successfully or with the wrapped error. -/
def plainSend {ε : Type} (wrap : ε → QualificationCheckError) :
    SendBehavior ε → Except QualificationCheckError Unit
  | .ok => .ok ()
  | .err e => .error (wrap e)
  | .slowOk => .ok ()
  | .slowErr e => .error (wrap e)

/-- Whether an outcome is the distinct `SendTimeout` error kind. -/
def isSendTimeout {α : Type} : Except QualificationCheckError α → Bool
  | .error .SendTimeout => true
  | _ => false

/-! ## Signals, events and warnings -/

/-- Modelled from the spec: the termination signals of the `process` module
(outside the reviewed source); `SIGTERM` is the polite-stop signal,
`SIGKILL` the forced kill. -/
inductive Signal where
  | SIGTERM
  | SIGKILL
  deriving DecidableEq, Repr

/-- Modelled from the spec: `child_shutdown(child, signal, grace_period)`
(the `process` module, outside the reviewed source) sends the signal, then
waits up to the grace period for voluntary exit when one is supplied, and
otherwise waits unbounded; there is no forced-kill escalation. -/
inductive ShutdownWait where
  | boundedBy (n : Nat)
  | unbounded
  deriving DecidableEq, Repr

/-- The wait policy induced by the grace-period argument of a
`child_shutdown` call (spec-modelled, see `ShutdownWait`). -/
def shutdownWaitOf : Option Nat → ShutdownWait
  | some n => .boundedBy n
  | none => .unbounded

/-- The observable actions recorded by a run of the state machine, in
chronological order. -/
inductive Event where
  | wsSent (m : QMessage)
  | readItem (i : Except IoError LangServerQualificationCheckMessage)
  | spawned
  | childRequestSent
  | childStdinClosed
  | finishSendAttempted
  | wsCloseAttempted
  | childShutdownCalled (signal : Option Signal) (gracePeriod : Option Nat)
  deriving DecidableEq, Repr

/-- The two warning-level diagnostics `finish` can emit:
`shutdownWarn` is the source's "failed to shutdown child cleanly" and
`closeWarn` its "failed to cleanly close websocket", each carrying the
corresponding error. -/
inductive Warning where
  | shutdownWarn (e : QualificationCheckError)
  | closeWarn (e : QualificationCheckError)
  deriving DecidableEq, Repr

/-! ## The websocket send operations -/

/-- `ws_send_start`: serialize `Message::Start` (infallible for this fixed
payload-free variant) and send it under the timeout wrapper; websocket
errors map to `WSSendIO`. -/
def ws_send_start (b : SendBehavior AxumError) :
    Except QualificationCheckError Unit :=
  timeoutSend QualificationCheckError.WSSendIo b

/-- `ws_send_finish`: serialize `Message::Finish` (infallible for this fixed
payload-free variant) and send it under the timeout wrapper; websocket
errors map to `WSSendIO`. -/
def ws_send_finish (b : SendBehavior AxumError) :
    Except QualificationCheckError Unit :=
  timeoutSend QualificationCheckError.WSSendIo b

/-- `ws_close`: `ws.close().await.map_err(WSClose)`. -/
def ws_close (r : Except AxumError Unit) :
    Except QualificationCheckError Unit :=
  match r with
  | .ok _ => .ok ()
  | .error e => .error (.WSClose e)

/-! ## Closing: the shutdown coordinator -/

/-- The underlying outcomes of the three teardown operations, supplied as the
environment of one `finish` call. -/
structure FinishEnv where
  finishSend : SendBehavior AxumError
  wsCloseOutcome : Except AxumError Unit
  childShutdownOutcome : Except ShutdownError Unit
  deriving DecidableEq, Repr

/-- What one `finish` call produces: the surfaced result, the event trace,
and the warning-level diagnostics in emission order. -/
structure FinishOutcome where
  result : Except QualificationCheckError Unit
  events : List Event
  warnings : List Warning
  deriving DecidableEq, Repr

/-- The three-way combination at the end of `finish`: the
`match (finished, closed, shutdown)` of the reviewed source, arm for arm,
returning the surfaced result and the `warn!` diagnostics in emission
order. -/
def finishCombine (finished closed shutdown : Except QualificationCheckError Unit) :
    Except QualificationCheckError Unit × List Warning :=
  match finished, closed, shutdown with
  | .ok _, .ok _, .ok _ => (.ok (), [])
  | .ok _, .ok _, .error e => (.error e, [])
  | .ok _, .error e, .ok _ => (.error e, [])
  | .error e, .ok _, .ok _ => (.error e, [])
  | .ok _, .error e, .error s => (.error e, [.shutdownWarn s])
  | .error e, .ok _, .error s => (.error e, [.shutdownWarn s])
  | .error e, .error c, .ok _ => (.error e, [.closeWarn c])
  | .error e, .error c, .error s => (.error e, [.shutdownWarn s, .closeWarn c])

/-- `QualificationCheckServerExecutionClosing`: owns only the child handle,
which carries no data in the embedding. -/
structure QualificationCheckServerExecutionClosing where
  deriving DecidableEq, Repr

/-- `finish`: always runs all three teardown operations in order — send
`Finish` (timeout-wrapped), close the websocket, `child_shutdown` with
`Some(Signal::SIGTERM)` and grace period `None` — then combines the three
outcomes with `finishCombine`. -/
def finish (env : FinishEnv)
    (_closing : QualificationCheckServerExecutionClosing) : FinishOutcome :=
  let finished := ws_send_finish env.finishSend
  let closed := ws_close env.wsCloseOutcome
  let shutdown : Except QualificationCheckError Unit :=
    match env.childShutdownOutcome with
    | .ok _ => .ok ()
    | .error e => .error (.ChildShutdown e)
  let sentFinish : List Event :=
    match finished with
    | .ok _ => [.wsSent .Finish]
    | .error _ => []
  let combined := finishCombine finished closed shutdown
  { result := combined.1
    events := .finishSendAttempted :: sentFinish
        ++ [.wsCloseAttempted, .childShutdownCalled (some .SIGTERM) none]
    warnings := combined.2 }

/-- Spec-side definition (for the C2 refinement): the reported error is the
highest-priority failed operation in the fixed order finish-send, then
transport close, then worker termination. -/
def firstErrorSpec (finished closed shutdown : Except QualificationCheckError Unit) :
    Except QualificationCheckError Unit :=
  match finished with
  | .error e => .error e
  | .ok _ =>
    match closed with
    | .error e => .error e
    | .ok _ => shutdown

/-- Spec-side definition (for the C2 refinement): every operation that failed
but was not the reported one is logged as a warning carrying its error. -/
def warningsSpec (finished closed shutdown : Except QualificationCheckError Unit) :
    List Warning :=
  (match shutdown with
    | .error s =>
        if exceptIsOk finished && exceptIsOk closed then [] else [.shutdownWarn s]
    | .ok _ => [])
  ++
  (match closed with
    | .error c => if exceptIsOk finished then [] else [.closeWarn c]
    | .ok _ => [])

/-! ## Unstarted: start() -/

/-- The environment of one `start` call: the underlying outcome of each
fallible external operation, in program order. -/
structure StartEnv where
  startSend : SendBehavior AxumError
  wsNext : Option (Except AxumError WebSocketMessage)
  requestParse : Except String QualificationCheckRequest
  spawnOutcome : Except IoError Unit
  stdinAvailable : Bool
  stdoutAvailable : Bool
  childRequestSend : SendBehavior IoError
  childStdinClose : SendBehavior IoError
  langServerPath : String
  deriving DecidableEq, Repr

/-- `read_request`: read exactly one inbound websocket message; a text frame
is deserialized (outcome supplied by the environment), any other frame kind
is `UnexpectedMessageType`, a stream error is `WSRecvIO`, and a closed
stream is the distinct `WSRecvClosed`. -/
def read_request (env : StartEnv) :
    Except QualificationCheckError QualificationCheckRequest :=
  match env.wsNext with
  | some (.ok (.Text _)) =>
      match env.requestParse with
      | .ok req => .ok req
      | .error e => .error (.JSONDeserialize e)
  | some (.ok unexpected) => .error (.UnexpectedMessageType unexpected)
  | some (.error e) => .error (.WSRecvIo e)
  | none => .error .WSRecvClosed

/-- `child_send_function_request`: write the framed request to the child's
stdin, then close (half-close) the stdin; the write and the close are each
wrapped in the 2-second timeout independently, and errors map to
`ChildSendIO`. -/
def child_send_function_request (sendB closeB : SendBehavior IoError) :
    Except QualificationCheckError Unit :=
  match timeoutSend QualificationCheckError.ChildSendIo sendB with
  | .error e => .error e
  | .ok _ => timeoutSend QualificationCheckError.ChildSendIo closeB

/-- `QualificationCheckServerExecutionStarted`: owns the child handle and its
framed stdout stream; the stream's contents are the worker's item
sequence. -/
structure QualificationCheckServerExecutionStarted where
  items : List (Except IoError LangServerQualificationCheckMessage)
  deriving DecidableEq, Repr

/-- What one `start` call produces: the phase result and the event trace. -/
structure StartOutcome where
  result : Except QualificationCheckError QualificationCheckServerExecutionStarted
  events : List Event
  deriving DecidableEq, Repr

/-- `start`: send `Start` (timeout-wrapped), read exactly one request, spawn
the worker, take its stdin, send the request and half-close (each
timeout-wrapped), take its stdout, and transition to Started. Any failure
returns that step's error; on the failure paths after the spawn no
termination call exists and `kill_on_drop` is not set, so the spawned worker
is left running. `items` is the child's stdout content, owned by the
returned Started value on success. -/
def start (env : StartEnv)
    (items : List (Except IoError LangServerQualificationCheckMessage)) :
    StartOutcome :=
  match ws_send_start env.startSend with
  | .error e => { result := .error e, events := [] }
  | .ok _ =>
    match read_request env with
    | .error e => { result := .error e, events := [.wsSent .Start] }
    | .ok _request =>
      match env.spawnOutcome with
      | .error e =>
          { result := .error (.ChildSpawn e env.langServerPath)
            events := [.wsSent .Start] }
      | .ok _ =>
        if env.stdinAvailable then
          match timeoutSend QualificationCheckError.ChildSendIo env.childRequestSend with
          | .error e =>
              { result := .error e, events := [.wsSent .Start, .spawned] }
          | .ok _ =>
            match timeoutSend QualificationCheckError.ChildSendIo env.childStdinClose with
            | .error e =>
                { result := .error e
                  events := [.wsSent .Start, .spawned, .childRequestSent] }
            | .ok _ =>
              if env.stdoutAvailable then
                { result := .ok { items := items }
                  events := [.wsSent .Start, .spawned, .childRequestSent,
                             .childStdinClosed] }
              else
                { result := .error (.ChildIo "stdout")
                  events := [.wsSent .Start, .spawned, .childRequestSent,
                             .childStdinClosed] }
        else
          { result := .error (.ChildIo "stdin")
            events := [.wsSent .Start, .spawned] }

/-- A `start` environment in which the Start send, the request read and the
worker spawn all succeed, so `start` reaches the post-spawn steps; the
pipe availability and the child-stdin operations stay free. -/
def startEnvAfterSpawnOk (js : String) (req : QualificationCheckRequest)
    (stdinAvail stdoutAvail : Bool) (c1 c2 : SendBehavior IoError)
    (path : String) : StartEnv :=
  { startSend := .ok
    wsNext := some (.ok (.Text js))
    requestParse := .ok req
    spawnOutcome := .ok ()
    stdinAvailable := stdinAvail
    stdoutAvailable := stdoutAvail
    childRequestSend := c1
    childStdinClose := c2
    langServerPath := path }

/-! ## Started: process() -/

/-- One streamed send inside `process`:
`ws.send(msg).await.map_err(WSSendIO)` — note: not wrapped in
`time::timeout`. -/
def streamedSend (b : SendBehavior AxumError) :
    Except QualificationCheckError Unit :=
  plainSend QualificationCheckError.WSSendIo b

/-- The read/translate/forward loop of `process`: pull the next worker item
(recording the read); an error item aborts with `ChildRecvIO`; a well-formed
record is translated with the clock at this step and forwarded over the
websocket, each send awaited before the next read. `k` indexes the step for
the clock and the send environment. -/
def processLoop (clock : Nat → Int) (sends : Nat → SendBehavior AxumError) :
    Nat → List (Except IoError LangServerQualificationCheckMessage) →
      Except QualificationCheckError Unit × List Event
  | _, [] => (.ok (), [])
  | k, item :: rest =>
    match item with
    | .error e => (.error (.ChildRecvIo e), [.readItem item])
    | .ok m =>
      match streamedSend (sends k) with
      | .error e => (.error e, [.readItem item])
      | .ok _ =>
        let next := processLoop clock sends (k + 1) rest
        (next.1, .readItem item :: .wsSent (translateLS (clock k) m) :: next.2)

/-- What one `process` call produces: the phase result and the event trace. -/
structure ProcessOutcome where
  result : Except QualificationCheckError QualificationCheckServerExecutionClosing
  events : List Event
  deriving DecidableEq, Repr

/-- `process`: run the read/translate/forward loop over the Started value's
stdout items; stream exhaustion ends the phase normally and transitions to
Closing. -/
def process (clock : Nat → Int) (sends : Nat → SendBehavior AxumError)
    (started : QualificationCheckServerExecutionStarted) : ProcessOutcome :=
  let r := processLoop clock sends 0 started.items
  match r.1 with
  | .ok _ => { result := .ok ⟨⟩, events := r.2 }
  | .error e => { result := .error e, events := r.2 }

/-! ## Traces and the whole run -/

/-- The envelopes successfully sent on the transport, extracted from an
event trace in order. -/
def sentOf : List Event → List QMessage
  | [] => []
  | .wsSent m :: rest => m :: sentOf rest
  | _ :: rest => sentOf rest

/-- The read/send interleaving `process` produces on an all-well-formed item
list: each record is read, then its translation is sent, before the next
read. -/
def interleaveEvents (clock : Nat → Int) :
    Nat → List LangServerQualificationCheckMessage → List Event
  | _, [] => []
  | k, m :: rest =>
      .readItem (.ok m) :: .wsSent (translateLS (clock k) m)
        :: interleaveEvents clock (k + 1) rest

/-- The translations of a record list, with the per-step clock. -/
def translations (clock : Nat → Int) :
    Nat → List LangServerQualificationCheckMessage → List QMessage
  | _, [] => []
  | k, m :: rest => translateLS (clock k) m :: translations clock (k + 1) rest

/-- Whether a worker record is a terminal Result record. -/
def isResultRecord : LangServerQualificationCheckMessage → Bool
  | .Result _ => true
  | .Output _ => false

/-- Whether an envelope is a Result envelope. -/
def isResultEnvelope : QMessage → Bool
  | .Result _ => true
  | _ => false

/-- The environment of one whole execution. -/
structure ExecEnv where
  startEnv : StartEnv
  items : List (Except IoError LangServerQualificationCheckMessage)
  clock : Nat → Int
  sends : Nat → SendBehavior AxumError
  finishEnv : FinishEnv

/-- What one whole execution produces. -/
structure RunOutcome where
  result : Except QualificationCheckError Unit
  events : List Event
  warnings : List Warning
  deriving DecidableEq, Repr

/-- One whole execution driven by a caller that chains the phases with `?`:
`start`, then `process`, then `finish`, stopping at the first phase
error. -/
def runExecution (env : ExecEnv) : RunOutcome :=
  let s := start env.startEnv env.items
  match s.result with
  | .error e => { result := .error e, events := s.events, warnings := [] }
  | .ok started =>
    let p := process env.clock env.sends started
    match p.result with
    | .error e =>
        { result := .error e, events := s.events ++ p.events, warnings := [] }
    | .ok closing =>
        let f := finish env.finishEnv closing
        { result := f.result
          events := s.events ++ p.events ++ f.events
          warnings := f.warnings }

/-- An execution environment in which every external operation succeeds: all
sends complete in time, the caller supplies a parseable request, the worker
spawns with both pipes, and all teardown operations succeed. The worker's
stdout holds exactly the well-formed records `msgs`. -/
def allOkEnv (msgs : List LangServerQualificationCheckMessage)
    (clock : Nat → Int) (js : String) (req : QualificationCheckRequest) :
    ExecEnv :=
  { startEnv := startEnvAfterSpawnOk js req true true .ok .ok "lang-js"
    items := msgs.map Except.ok
    clock := clock
    sends := fun _ => .ok
    finishEnv :=
      { finishSend := .ok
        wsCloseOutcome := .ok ()
        childShutdownOutcome := .ok () } }

/-- A sample worker output record for concrete witnesses. -/
def sampleOutput : LangServerOutput :=
  { execution_id := "e1"
    stream := "stdout"
    level := "info"
    group := none
    message := "hello"
    data := none }

/-- A sample worker success record for concrete witnesses. -/
def sampleSuccess : LangServerSuccess :=
  { execution_id := "e1"
    qualified := true
    title := none
    link := none
    sub_checks := none
    message := none }

/-- A sample worker record sequence: two output records, then one success
result. -/
def sampleMsgs : List LangServerQualificationCheckMessage :=
  [.Output sampleOutput,
   .Output { sampleOutput with message := "world" },
   .Result (.Success sampleSuccess)]

/-! ## JSON field model for the result round-trip -/

/-- A minimal JSON value model for the success-result object: string,
boolean and integer leaves, `null`, and the sub-check array kept abstract
(derived serde round-trips it unchanged). -/
inductive JVal where
  | str (s : String)
  | boolean (b : Bool)
  | nat (n : Nat)
  | null
  | subChecks (l : List QualificationSubCheck)
  deriving DecidableEq, Repr

/-- An `Option<String>` field as serde serializes it by default: `None`
becomes `null`. -/
def optStrVal : Option String → JVal
  | some s => .str s
  | none => .null

/-- Modelled from the spec: the serde serialization of a bridge-side
`FunctionResult::Success(QualificationCheckResultSuccess)` (that derive
lives in the crate root, outside the reviewed source): one JSON object with
the `status: "success"` tag and camelCase field names, `None` as `null`. -/
def serializeSuccess (s : QualificationCheckResultSuccess) :
    List (String × JVal) :=
  [("status", .str "success"),
   ("executionId", .str s.execution_id),
   ("qualified", .boolean s.qualified),
   ("title", optStrVal s.title),
   ("link", optStrVal s.link),
   ("subChecks",
     match s.sub_checks with
     | some l => .subChecks l
     | none => .null),
   ("message", optStrVal s.message),
   ("timestamp", .nat s.timestamp)]

/-- Field lookup in a JSON object. -/
def lookupField (fields : List (String × JVal)) (name : String) :
    Option JVal :=
  (fields.find? (fun p => p.1 == name)).map Prod.snd

/-- A mandatory string field. -/
def getStr (fields : List (String × JVal)) (name : String) : Option String :=
  match lookupField fields name with
  | some (.str s) => some s
  | _ => none

/-- A mandatory boolean field. -/
def getBoolean (fields : List (String × JVal)) (name : String) : Option Bool :=
  match lookupField fields name with
  | some (.boolean b) => some b
  | _ => none

/-- An `Option<String>` field under derived serde semantics: missing or
`null` reads as `None`. -/
def getOptStr (fields : List (String × JVal)) (name : String) :
    Option (Option String) :=
  match lookupField fields name with
  | none => some none
  | some .null => some none
  | some (.str s) => some (some s)
  | some _ => none

/-- An `Option<Vec<QualificationSubCheck>>` field under derived serde
semantics: missing or `null` reads as `None`. -/
def getOptSubChecks (fields : List (String × JVal)) (name : String) :
    Option (Option (List QualificationSubCheck)) :=
  match lookupField fields name with
  | none => some none
  | some .null => some none
  | some (.subChecks l) => some (some l)
  | some _ => none

/-- The derived `Deserialize` of `LangServerSuccess` (reviewed source,
camelCase): each field read by name; unknown fields — such as the `status`
tag and the bridge's `timestamp` — are ignored, since the derive does not
deny unknown fields. -/
def deserializeLangServerSuccess (fields : List (String × JVal)) :
    Option LangServerSuccess := do
  let eid ← getStr fields "executionId"
  let q ← getBoolean fields "qualified"
  let title ← getOptStr fields "title"
  let link ← getOptStr fields "link"
  let subs ← getOptSubChecks fields "subChecks"
  let msg ← getOptStr fields "message"
  some { execution_id := eid, qualified := q, title := title, link := link,
         sub_checks := subs, message := msg }

/-- The worker-side record holding the same payload fields as a bridge-side
success result (the timestamp has no counterpart on the worker side). -/
def successToLangServer (s : QualificationCheckResultSuccess) :
    LangServerSuccess :=
  { execution_id := s.execution_id
    qualified := s.qualified
    title := s.title
    link := s.link
    sub_checks := s.sub_checks
    message := s.message }

end Cyclone

namespace Cyclone

/-- C10 helper and C6 helper: the clamp characterization. -/
theorem timestamp_eq (now : Int) : timestamp now = (max now 0).toNat := by
  simp [timestamp, timestampChecked, u64TryFrom, le_max_right]

/-- C6 helper: a negative clock reading is clamped to zero. -/
theorem timestamp_neg (now : Int) (h : now < 0) : timestamp now = 0 := by
  rw [timestamp_eq, max_eq_right h.le]
  rfl

end Cyclone

/-- C6: the timestamp of every translated `OutputStream` record is the one
assigned by the bridge at translation time (`timestamp now`, independent of
the worker record), it is a non-negative integer count of seconds, and when
the source clock yields a negative value the emitted timestamp is exactly
`0`. -/
theorem Cyclone.c6_output_timestamp (now : Int) (o : Cyclone.LangServerOutput) :
    (Cyclone.outputStreamOfLangServer now o).timestamp = Cyclone.timestamp now
    ∧ (0 : Int) ≤ ((Cyclone.outputStreamOfLangServer now o).timestamp : Int)
    ∧ (now < 0 → (Cyclone.outputStreamOfLangServer now o).timestamp = 0) := by
  refine ⟨rfl, by positivity, fun h => ?_⟩
  show Cyclone.timestamp now = 0
  exact Cyclone.timestamp_neg now h

/-- C6 witness: at the concrete clock reading `-5` and a concrete worker
record, the translated timestamp is `timestamp (-5) = 0`. -/
theorem Cyclone.c6_output_timestamp_witness :
    (Cyclone.outputStreamOfLangServer (-5)
        { execution_id := "e1", stream := "stdout", level := "info",
          group := none, message := "hello", data := none }).timestamp
      = Cyclone.timestamp (-5)
    ∧ ((-5 : Int) < 0 →
        (Cyclone.outputStreamOfLangServer (-5)
            { execution_id := "e1", stream := "stdout", level := "info",
              group := none, message := "hello", data := none }).timestamp = 0) :=
  ⟨(Cyclone.c6_output_timestamp (-5) _).1, (Cyclone.c6_output_timestamp (-5) _).2.2⟩

/-- C10: the timestamp function is total: for every clock reading (negative
values included) the clamp happens before the `u64` conversion, so the
conversion always succeeds — `timestampChecked` is always `some`, i.e. the
`expect("timestamp not be negative")` panic branch is unreachable — and the
total function computes `(max now 0).toNat`. -/
theorem Cyclone.c10_timestamp_total (now : Int) :
    (Cyclone.timestampChecked now).isSome = true
    ∧ Cyclone.timestamp now = (max now 0).toNat := by
  constructor
  · simp [Cyclone.timestampChecked, Cyclone.u64TryFrom, le_max_right]
  · exact Cyclone.timestamp_eq now

namespace Cyclone

/-- The loop on an all-well-formed item list with all sends completing in
time: it succeeds and produces the strict read/send interleaving. -/
theorem processLoop_all_ok (clock : Nat → Int)
    (msgs : List LangServerQualificationCheckMessage) (k : Nat) :
    processLoop clock (fun _ => .ok) k (msgs.map Except.ok) =
      (.ok (), interleaveEvents clock k msgs) := by
  induction msgs generalizing k with
  | nil => rfl
  | cons m rest ih =>
      simp [processLoop, streamedSend, plainSend, interleaveEvents, ih]

/-- The loop on a stream whose first malformed item follows a well-formed
prefix: the prefix is read and forwarded, then the error item is read and
the loop aborts with `ChildRecvIO` of that item's error. -/
theorem processLoop_prefix_error (clock : Nat → Int) (k : Nat)
    (pre : List LangServerQualificationCheckMessage) (e : IoError)
    (rest : List (Except IoError LangServerQualificationCheckMessage)) :
    processLoop clock (fun _ => .ok) k
        (pre.map Except.ok ++ .error e :: rest) =
      (.error (.ChildRecvIo e),
       interleaveEvents clock k pre ++ [.readItem (.error e)]) := by
  induction pre generalizing k with
  | nil => rfl
  | cons m r ih =>
      simp [processLoop, streamedSend, plainSend, interleaveEvents, ih]

/-- Specialization of `processLoop_all_ok` to a stream of Output records
only. -/
theorem processLoop_outputs_ok (clock : Nat → Int)
    (outs : List LangServerOutput) (k : Nat) :
    processLoop clock (fun _ => .ok) k
        (outs.map (fun o => Except.ok (.Output o))) =
      (.ok (), interleaveEvents clock k
        (outs.map LangServerQualificationCheckMessage.Output)) := by
  induction outs generalizing k with
  | nil => rfl
  | cons o r ih =>
      simp [processLoop, streamedSend, plainSend, interleaveEvents, ih]

theorem sentOf_append (a b : List Event) :
    sentOf (a ++ b) = sentOf a ++ sentOf b := by
  induction a with
  | nil => rfl
  | cons ev rest ih => cases ev <;> simp [sentOf, ih]

theorem sentOf_interleave (clock : Nat → Int) (k : Nat)
    (msgs : List LangServerQualificationCheckMessage) :
    sentOf (interleaveEvents clock k msgs) = translations clock k msgs := by
  induction msgs generalizing k with
  | nil => rfl
  | cons m rest ih => simp [interleaveEvents, sentOf, translations, ih]

/-- Translation preserves the number of Result records one-for-one. -/
theorem translations_count (clock : Nat → Int) (k : Nat)
    (msgs : List LangServerQualificationCheckMessage) :
    (translations clock k msgs).countP isResultEnvelope
      = msgs.countP isResultRecord := by
  induction msgs generalizing k with
  | nil => rfl
  | cons m rest ih =>
      cases m <;>
        simp [translations, translateLS, isResultEnvelope, isResultRecord,
              List.countP_cons, ih]

/-- `finish` records an attempt of each of the three teardown operations in
every environment, and the only termination call it makes passes
`Some(SIGTERM)` and no grace period. -/
theorem finish_attempts (env : FinishEnv)
    (closing : QualificationCheckServerExecutionClosing) :
    Event.finishSendAttempted ∈ (finish env closing).events
    ∧ Event.wsCloseAttempted ∈ (finish env closing).events
    ∧ Event.childShutdownCalled (some .SIGTERM) none ∈ (finish env closing).events
    ∧ (∀ (s : Option Signal) (g : Option Nat),
        Event.childShutdownCalled s g ∈ (finish env closing).events →
          s = some Signal.SIGTERM ∧ g = none) := by
  cases hf : ws_send_finish env.finishSend <;>
    refine ⟨?_, ?_, ?_, ?_⟩ <;> simp [finish, hf]

/-- `start` never calls worker termination, in any environment and on any
path. -/
theorem start_no_shutdown (env : StartEnv)
    (items : List (Except IoError LangServerQualificationCheckMessage))
    (s : Option Signal) (g : Option Nat) :
    Event.childShutdownCalled s g ∉ (start env items).events := by
  unfold start
  repeat' split
  all_goals simp

/-- `finish` in an all-successful environment: sends `Finish`, closes, and
terminates, with no warnings. -/
theorem finish_all_ok (closing : QualificationCheckServerExecutionClosing) :
    finish
        { finishSend := .ok, wsCloseOutcome := .ok (),
          childShutdownOutcome := .ok () } closing =
      { result := .ok ()
        events := [.finishSendAttempted, .wsSent .Finish, .wsCloseAttempted,
                   .childShutdownCalled (some .SIGTERM) none]
        warnings := [] } := rfl

/-- The full event trace of an execution in which every external operation
succeeds. -/
theorem run_all_ok (msgs : List LangServerQualificationCheckMessage)
    (clock : Nat → Int) (js : String) (req : QualificationCheckRequest) :
    runExecution (allOkEnv msgs clock js req) =
      { result := .ok ()
        events := [.wsSent .Start, .spawned, .childRequestSent, .childStdinClosed]
            ++ interleaveEvents clock 0 msgs
            ++ [.finishSendAttempted, .wsSent .Finish, .wsCloseAttempted,
                .childShutdownCalled (some .SIGTERM) none]
        warnings := [] } := by
  have hs : start (allOkEnv msgs clock js req).startEnv
      (allOkEnv msgs clock js req).items =
      { result := .ok { items := msgs.map Except.ok }
        events := [.wsSent .Start, .spawned, .childRequestSent,
                   .childStdinClosed] } := rfl
  have hp : process (allOkEnv msgs clock js req).clock
      (allOkEnv msgs clock js req).sends { items := msgs.map Except.ok } =
      { result := .ok ⟨⟩, events := interleaveEvents clock 0 msgs } := by
    simp [process, allOkEnv, processLoop_all_ok]
  have hf : finish (allOkEnv msgs clock js req).finishEnv ⟨⟩ =
      { result := .ok ()
        events := [.finishSendAttempted, .wsSent .Finish, .wsCloseAttempted,
                   .childShutdownCalled (some .SIGTERM) none]
        warnings := [] } := rfl
  simp [runExecution, hs, hp, hf]

end Cyclone

/-- C2: the shutdown combination refines the spec's priority rule: for every
combination of outcomes of the three Closing operations, the surfaced result
is the highest-priority failed operation in the fixed order (Finish-send,
transport close, worker termination) and every other failed operation is
logged as a warning carrying its error; in particular, when all three fail
the Finish-send error is returned and exactly two warnings are logged, one
carrying the worker-termination error and one carrying the transport-close
error. -/
theorem Cyclone.c2_finish_priority :
    (∀ finished closed shutdown : Except Cyclone.QualificationCheckError Unit,
      Cyclone.finishCombine finished closed shutdown =
        (Cyclone.firstErrorSpec finished closed shutdown,
         Cyclone.warningsSpec finished closed shutdown))
    ∧ (∀ ef ec es : Cyclone.QualificationCheckError,
      Cyclone.finishCombine (.error ef) (.error ec) (.error es) =
        (.error ef, [.shutdownWarn es, .closeWarn ec])) := by
  constructor
  · intro finished closed shutdown
    cases finished <;> cases closed <;> cases shutdown <;> rfl
  · intro ef ec es
    rfl

/-- C5: `finish` always runs each of the three teardown operations regardless
of the others' outcomes, and worker termination is always invoked with the
polite-stop signal `Some(SIGTERM)` and grace period `None`, which per the
spec-modelled wait policy is an unbounded wait with no forced-kill
escalation. -/
theorem Cyclone.c5_finish_unconditional (env : Cyclone.FinishEnv)
    (closing : Cyclone.QualificationCheckServerExecutionClosing) :
    Cyclone.Event.finishSendAttempted ∈ (Cyclone.finish env closing).events
    ∧ Cyclone.Event.wsCloseAttempted ∈ (Cyclone.finish env closing).events
    ∧ Cyclone.Event.childShutdownCalled (some .SIGTERM) none
        ∈ (Cyclone.finish env closing).events
    ∧ (∀ (s : Option Cyclone.Signal) (g : Option Nat),
        Cyclone.Event.childShutdownCalled s g ∈ (Cyclone.finish env closing).events →
          s = some Cyclone.Signal.SIGTERM ∧ g = none)
    ∧ Cyclone.shutdownWaitOf none = Cyclone.ShutdownWait.unbounded := by
  cases hf : Cyclone.ws_send_finish env.finishSend <;>
    refine ⟨?_, ?_, ?_, ?_, rfl⟩ <;>
      simp [Cyclone.finish, hf]

/-- C5 witness: at a concrete environment in which every teardown operation
succeeds, the worker-termination call with `SIGTERM` and no grace period is
in the event trace. -/
theorem Cyclone.c5_finish_unconditional_witness :
    Cyclone.Event.childShutdownCalled (some .SIGTERM) none
      ∈ (Cyclone.finish ⟨.ok, .ok (), .ok ()⟩ ⟨⟩).events :=
  (Cyclone.c5_finish_unconditional ⟨.ok, .ok (), .ok ()⟩ ⟨⟩).2.2.1

/-- C1: in an execution in which every phase runs to completion and the
worker emits at most one Result record, the sequence of envelopes sent on
the transport is exactly one `Start` first, then the worker's records
translated in emission order (Output records as OutputStream envelopes,
Result records as Result envelopes, with at most one Result envelope), then
exactly one `Finish` last; the full event trace shows each streamed send
completed before the next worker record is read. -/
theorem Cyclone.c1_envelope_order
    (msgs : List Cyclone.LangServerQualificationCheckMessage)
    (clock : Nat → Int) (js : String) (req : Cyclone.QualificationCheckRequest)
    (h : msgs.countP Cyclone.isResultRecord ≤ 1) :
    (Cyclone.runExecution (Cyclone.allOkEnv msgs clock js req)).result = .ok ()
    ∧ (Cyclone.runExecution (Cyclone.allOkEnv msgs clock js req)).events =
        [.wsSent .Start, .spawned, .childRequestSent, .childStdinClosed]
          ++ Cyclone.interleaveEvents clock 0 msgs
          ++ [.finishSendAttempted, .wsSent .Finish, .wsCloseAttempted,
              .childShutdownCalled (some .SIGTERM) none]
    ∧ Cyclone.sentOf (Cyclone.runExecution (Cyclone.allOkEnv msgs clock js req)).events =
        .Start :: Cyclone.translations clock 0 msgs ++ [.Finish]
    ∧ (Cyclone.sentOf
          (Cyclone.runExecution (Cyclone.allOkEnv msgs clock js req)).events).countP
        Cyclone.isResultEnvelope ≤ 1 := by
  have hrun := Cyclone.run_all_ok msgs clock js req
  have h3 : Cyclone.sentOf
      (Cyclone.runExecution (Cyclone.allOkEnv msgs clock js req)).events =
      .Start :: Cyclone.translations clock 0 msgs ++ [.Finish] := by
    rw [hrun]
    show Cyclone.sentOf (_ ++ _ ++ _) = _
    rw [Cyclone.sentOf_append, Cyclone.sentOf_append,
        Cyclone.sentOf_interleave]
    simp [Cyclone.sentOf]
  refine ⟨by rw [hrun], by rw [hrun], h3, ?_⟩
  rw [h3]
  simpa [List.countP_cons, List.countP_append, Cyclone.isResultEnvelope,
         Cyclone.translations_count] using h

/-- C1 witness: with the concrete worker records Output, Output, Result the
run succeeds and the transport receives exactly Start, OutputStream,
OutputStream, Result, Finish in order. -/
theorem Cyclone.c1_envelope_order_witness :
    (Cyclone.runExecution
        (Cyclone.allOkEnv Cyclone.sampleMsgs (fun _ => 7) "req" ⟨"r1"⟩)).result = .ok ()
    ∧ Cyclone.sentOf (Cyclone.runExecution
        (Cyclone.allOkEnv Cyclone.sampleMsgs (fun _ => 7) "req" ⟨"r1"⟩)).events =
      .Start :: Cyclone.translations (fun _ => 7) 0 Cyclone.sampleMsgs ++ [.Finish] :=
  ⟨(Cyclone.c1_envelope_order Cyclone.sampleMsgs (fun _ => 7) "req" ⟨"r1"⟩ (by decide)).1,
   (Cyclone.c1_envelope_order Cyclone.sampleMsgs (fun _ => 7) "req" ⟨"r1"⟩ (by decide)).2.2.1⟩

/-- C3 counterexample: a streamed send during `process` that exceeds the
two-second deadline is not reported as `SendTimeout` — the phase completes
successfully and the envelope is sent anyway, because the streamed
`ws.send` is not wrapped in `time::timeout`. -/
theorem Cyclone.c3_counterexample :
    (Cyclone.SendBehavior.slowOk :
        Cyclone.SendBehavior Cyclone.AxumError).exceedsDeadline = true
    ∧ Cyclone.process (fun _ => 7) (fun _ => .slowOk)
        { items := [.ok (.Output Cyclone.sampleOutput)] } =
      { result := .ok ⟨⟩
        events := [.readItem (.ok (.Output Cyclone.sampleOutput)),
                   .wsSent (.OutputStream
                     (Cyclone.outputStreamOfLangServer 7 Cyclone.sampleOutput))] }
    ∧ Cyclone.isSendTimeout
        (Cyclone.process (fun _ => 7) (fun _ => .slowOk)
          { items := [.ok (.Output Cyclone.sampleOutput)] }).result = false :=
  ⟨rfl, rfl, rfl⟩

/-- C3 amended: the `Start` and `Finish` envelope sends and the child
request write and half-close are each bounded by the two-second deadline,
with a deadline overrun reported as the distinct `SendTimeout` kind and an
in-time failure as the generic kind; the streamed envelope sends during
`process`, however, are issued without the deadline wrapper, so they never
produce `SendTimeout` — a slow streamed send simply completes, and a failed
one surfaces as generic `WSSendIO`. -/
theorem Cyclone.c3_send_deadlines (e : Cyclone.AxumError) (ei : Cyclone.IoError)
    (c : Cyclone.SendBehavior Cyclone.IoError) :
    Cyclone.ws_send_start .slowOk = .error .SendTimeout
    ∧ Cyclone.ws_send_start (.slowErr e) = .error .SendTimeout
    ∧ Cyclone.ws_send_finish .slowOk = .error .SendTimeout
    ∧ Cyclone.ws_send_finish (.slowErr e) = .error .SendTimeout
    ∧ Cyclone.child_send_function_request .slowOk c = .error .SendTimeout
    ∧ Cyclone.child_send_function_request (.slowErr ei) c = .error .SendTimeout
    ∧ Cyclone.child_send_function_request .ok .slowOk = .error .SendTimeout
    ∧ Cyclone.ws_send_start (.err e) = .error (.WSSendIo e)
    ∧ Cyclone.ws_send_finish (.err e) = .error (.WSSendIo e)
    ∧ Cyclone.streamedSend .slowOk = .ok ()
    ∧ Cyclone.streamedSend (.slowErr e) = .error (.WSSendIo e)
    ∧ Cyclone.streamedSend (.err e) = .error (.WSSendIo e) :=
  ⟨rfl, rfl, rfl, rfl, rfl, rfl, rfl, rfl, rfl, rfl, rfl, rfl⟩

/-- C4: when the worker's output stream reaches end-of-stream without ever
emitting a Result record, `process` still ends normally with a Closing
value, and the subsequent `finish` still attempts to send the Finish
envelope in every environment. -/
theorem Cyclone.c4_eof_without_result (outs : List Cyclone.LangServerOutput)
    (clock : Nat → Int) (fenv : Cyclone.FinishEnv) :
    (Cyclone.process clock (fun _ => .ok)
        { items := outs.map (fun o => Except.ok (.Output o)) }).result
      = .ok ⟨⟩
    ∧ (outs.map Cyclone.LangServerQualificationCheckMessage.Output).countP
        Cyclone.isResultRecord = 0
    ∧ Cyclone.Event.finishSendAttempted ∈ (Cyclone.finish fenv ⟨⟩).events := by
  refine ⟨?_, ?_, (Cyclone.finish_attempts fenv ⟨⟩).1⟩
  · simp [Cyclone.process, Cyclone.processLoop_outputs_ok]
  · induction outs with
    | nil => rfl
    | cons o r ih => simp [List.countP_cons, Cyclone.isResultRecord, ih]

/-- C7: a malformed frame in the worker's record stream surfaces as a
per-item error (`ChildRecvIO` of the frame's decode failure) exactly at its
position: every record before it has already been read, translated and sent,
in order, and those sends are unaffected — the envelopes delivered to the
transport are precisely the translations of the records preceding the
malformed frame. -/
theorem Cyclone.c7_malformed_frame (clock : Nat → Int)
    (pre : List Cyclone.LangServerQualificationCheckMessage) (s : String)
    (rest : List (Except Cyclone.IoError Cyclone.LangServerQualificationCheckMessage)) :
    Cyclone.process clock (fun _ => .ok)
        { items := pre.map Except.ok ++ .error (.decodeFail s) :: rest } =
      { result := .error (.ChildRecvIo (.decodeFail s))
        events := Cyclone.interleaveEvents clock 0 pre
            ++ [.readItem (.error (.decodeFail s))] }
    ∧ Cyclone.sentOf (Cyclone.interleaveEvents clock 0 pre
          ++ [.readItem (.error (.decodeFail s))])
        = Cyclone.translations clock 0 pre := by
  constructor
  · simp [Cyclone.process, Cyclone.processLoop_prefix_error]
  · rw [Cyclone.sentOf_append, Cyclone.sentOf_interleave]
    simp [Cyclone.sentOf]

/-- C9: when `start` fails after the worker has been spawned (missing stdin
or stdout pipe, or a failed or timed-out request write or half-close), it
returns the step's error, the spawned worker is not terminated (no
termination call appears in the trace), and no Started handle is returned to
the caller. -/
theorem Cyclone.c9_start_failure_leaves_worker (js path : String)
    (req : Cyclone.QualificationCheckRequest) (b1 b2 : Bool)
    (c1 c2 : Cyclone.SendBehavior Cyclone.IoError)
    (items : List (Except Cyclone.IoError Cyclone.LangServerQualificationCheckMessage))
    (h : b1 = false ∨ c1 ≠ .ok ∨ c2 ≠ .ok ∨ b2 = false) :
    (∃ e, (Cyclone.start (Cyclone.startEnvAfterSpawnOk js req b1 b2 c1 c2 path)
        items).result = .error e)
    ∧ Cyclone.Event.spawned
        ∈ (Cyclone.start (Cyclone.startEnvAfterSpawnOk js req b1 b2 c1 c2 path)
            items).events
    ∧ ∀ (s : Option Cyclone.Signal) (g : Option Nat),
        Cyclone.Event.childShutdownCalled s g
          ∉ (Cyclone.start (Cyclone.startEnvAfterSpawnOk js req b1 b2 c1 c2 path)
              items).events := by
  refine ⟨?_, ?_, fun s g => Cyclone.start_no_shutdown _ _ s g⟩
  · cases b1 <;> cases b2 <;> cases c1 <;> cases c2 <;>
      first
        | exact ⟨_, rfl⟩
        | (rcases h with h | h | h | h <;> simp_all)
  · cases b1 <;> cases b2 <;> cases c1 <;> cases c2 <;>
      simp [Cyclone.start, Cyclone.startEnvAfterSpawnOk, Cyclone.read_request,
            Cyclone.ws_send_start, Cyclone.timeoutSend]

/-- C9 witness: with the stdin pipe missing, `start` fails after the spawn
and the spawned worker appears in the trace with no termination call. -/
theorem Cyclone.c9_start_failure_leaves_worker_witness :
    Cyclone.Event.spawned
      ∈ (Cyclone.start
          (Cyclone.startEnvAfterSpawnOk "req" ⟨"r1"⟩ false true .ok .ok "p")
          []).events :=
  (Cyclone.c9_start_failure_leaves_worker "req" "p" ⟨"r1"⟩ false true .ok .ok []
    (Or.inl rfl)).2.1

/-- C8: serializing a bridge-side success result and deserializing the
object as a worker-side success record always succeeds (the `status` tag
reads `"success"`) and yields field-for-field equality on `execution_id`,
`qualified`, `message`, `title`, `link` and `sub_checks`; the serialized
`timestamp` is dropped (the worker record has no such field), and
translating the record back through the bridge produces the same success
result with the timestamp freshly assigned from the translation-time clock,
never taken from the worker record. -/
theorem Cyclone.c8_success_round_trip
    (s : Cyclone.QualificationCheckResultSuccess) (now : Int) :
    Cyclone.getStr (Cyclone.serializeSuccess s) "status" = some "success"
    ∧ Cyclone.deserializeLangServerSuccess (Cyclone.serializeSuccess s)
        = some (Cyclone.successToLangServer s)
    ∧ Cyclone.FunctionResult.ofLangServerResult now
        (.Success (Cyclone.successToLangServer s))
        = .Success { s with timestamp := Cyclone.timestamp now } := by
  obtain ⟨eid, q, msg, title, link, subs, ts⟩ := s
  refine ⟨rfl, ?_, rfl⟩
  cases msg <;> cases title <;> cases link <;> cases subs <;> rfl
